import Mathlib

/-!
# Verification of the Sora MCP gateway (`server.py`)

A shallow embedding of the tool-invocation gateway implemented in
`server.py`: JSON values, Python truthiness, the `_safe_json` helper, the
two tool handlers (`start_sora_job`, `get_sora_job`) in both their FastMCP
and fallback variants, the REST dispatcher `_run_tool_impl`, the JSON-RPC
`tools/call` branch of `root_jsonrpc`, and the bearer-token gate
`_require_auth_for_exec`.  Outbound HTTP traffic is modelled by passing in
the transport outcome (`Transport`) and collecting the list of requests the
handler issues, so "no network call is made" is the statement that the
collected list is empty.
-/

namespace Sora

/-- A JSON value, as produced by `resp.json()` / `request.get_json()`.
Python `None` is `null`, dicts are `obj` (association lists with string
keys, first binding wins as in `dict.get`), lists are `arr`.  Numbers are
modelled as integers; no claim depends on fractional values. -/
inductive Json where
  | null : Json
  | bool : Bool → Json
  | num  : Int → Json
  | str  : String → Json
  | arr  : List Json → Json
  | obj  : List (String × Json) → Json

/-- Python truthiness (`bool(v)`): `None`, `False`, `0`, `""`, `[]`, and
`{}` are falsy, everything else truthy. -/
def Json.truthy : Json → Bool
  | .null => false
  | .bool b => b
  | .num n => n != 0
  | .str s => !s.data.isEmpty
  | .arr l => !l.isEmpty
  | .obj l => !l.isEmpty

/-- Python `a or b`: `a` if truthy, else `b`. -/
def pyOr (a b : Json) : Json := if a.truthy then a else b

/-- Python `d.get(k, default)` on an association list: the first binding of
`k`, or the default when the key is absent (a binding to `None` is
returned as `None`, not as the default — exactly `dict.get`). -/
def dictGetD (kvs : List (String × Json)) (k : String) (d : Json) : Json :=
  match kvs.lookup k with
  | some v => v
  | none => d

/-- `str(type(v).__name__)`-style name used in Python error messages. -/
def Json.pyTypeName : Json → String
  | .null => "NoneType"
  | .bool _ => "bool"
  | .num _ => "int"
  | .str _ => "str"
  | .arr _ => "list"
  | .obj _ => "dict"

/-- Python attribute access `v.get(k)`: only dicts have `.get`; on any
other value an `AttributeError` is raised.  On a dict, a missing key gives
`None`. -/
def pyDictGet (v : Json) (k : String) : Except String Json :=
  match v with
  | .obj kvs => .ok (dictGetD kvs k .null)
  | v => .error ("\x27" ++ v.pyTypeName ++ "\x27 object has no attribute \x27get\x27")

/-- Python `v[0]`: first element of a list, first character of a string;
anything else raises (`TypeError` / `KeyError`). -/
def pyIndex0 (v : Json) : Except String Json :=
  match v with
  | .arr (x :: _) => .ok x
  | .arr [] => .error "list index out of range"
  | .str s =>
    match s.data with
    | c :: _ => .ok (.str (String.mk [c]))
    | [] => .error "string index out of range"
  | .obj _ => .error "KeyError: 0"
  | v => .error ("\x27" ++ v.pyTypeName ++ "\x27 object is not subscriptable")

mutual

/-- Python `str(v)` as used by f-strings in the source: exact for `None`,
booleans, integers and strings; containers rendered in `repr` style. -/
def Json.pyStr : Json → String
  | .null => "None"
  | .bool true => "True"
  | .bool false => "False"
  | .num n => toString n
  | .str s => s
  | .arr xs => "[" ++ pyStrList xs ++ "]"
  | .obj kvs => "\x7b" ++ pyStrObj kvs ++ "\x7d"

/-- `repr(v)`: like `Json.pyStr` but strings are quoted. -/
def pyStrInner : Json → String
  | .str s => "\x27" ++ s ++ "\x27"
  | .null => "None"
  | .bool true => "True"
  | .bool false => "False"
  | .num n => toString n
  | .arr xs => "[" ++ pyStrList xs ++ "]"
  | .obj kvs => "\x7b" ++ pyStrObj kvs ++ "\x7d"

/-- Elements of a list, comma separated, `repr` style. -/
def pyStrList : List Json → String
  | [] => ""
  | [x] => pyStrInner x
  | x :: xs => pyStrInner x ++ ", " ++ pyStrList xs

/-- Entries of a dict, comma separated, `repr` style. -/
def pyStrObj : List (String × Json) → String
  | [] => ""
  | [(k, v)] => "\x27" ++ k ++ "\x27: " ++ pyStrInner v
  | (k, v) :: kvs => "\x27" ++ k ++ "\x27: " ++ pyStrInner v ++ ", " ++ pyStrObj kvs

end

/-- An upstream HTTP response as seen through `httpx`: the status code,
the JSON value the body parses to (when it is valid JSON), and the raw
body text. -/
structure HttpResponse where
  status_code : Int
  jsonBody : Option Json
  text : String

/-- `_safe_json(resp)` (`server.py` lines 43–47): `resp.json()` when the
body parses, otherwise `{"status_code": ..., "text": ...}`.  Note that the
HTTP status is NOT inspected on the parseable path. -/
def safe_json (r : HttpResponse) : Json :=
  match r.jsonBody with
  | some j => j
  | none => .obj [("status_code", .num r.status_code), ("text", .str r.text)]

/-- The outcome of the single outbound `httpx` request: a response, a
timeout exception, or another transport exception (both are subclasses of
`httpx.HTTPError`; `msg` is `str(e)`). -/
inductive Transport where
  | ok (resp : HttpResponse)
  | timeoutErr (msg : String)
  | connectErr (msg : String)

/-- A Python exception escaping a tool handler. -/
inductive PyException where
  | runtimeError (msg : String)
  | httpError (isTimeout : Bool) (msg : String)
  | typeError (msg : String)
  | attributeError (msg : String)

/-- `str(e)` for a caught exception. -/
def PyException.message : PyException → String
  | .runtimeError m => m
  | .httpError _ m => m
  | .typeError m => m
  | .attributeError m => m

/-- The result dict of `get_sora_job` (`server.py` lines 140–146 /
186–192). -/
structure NormalizedStatus where
  status : Json
  progress : Json
  video_url : Json
  thumbnail_url : Json
  raw : Json

/-- The result dict rendered back as JSON, as the handler returns it. -/
def NormalizedStatus.toJson (ns : NormalizedStatus) : Json :=
  .obj [("status", ns.status), ("progress", ns.progress),
        ("video_url", ns.video_url), ("thumbnail_url", ns.thumbnail_url),
        ("raw", ns.raw)]

/-- `assets = (data.get("output") or {}).get("assets") or []`
(`server.py` line 138/184). -/
def assetsOf (data : Json) : Except String Json :=
  match pyDictGet data "output" with
  | .error e => .error e
  | .ok o =>
    match pyDictGet (pyOr o (Json.obj [])) "assets" with
    | .error e => .error e
    | .ok a => .ok (pyOr a (Json.arr []))

/-- `video_url = (assets[0] or {}).get("url") if assets else None`
(`server.py` line 139/185). -/
def videoUrlOf (assets : Json) : Except String Json :=
  if assets.truthy then
    match pyIndex0 assets with
    | .error e => .error e
    | .ok a0 => pyDictGet (pyOr a0 (Json.obj [])) "url"
  else .ok Json.null

/-- The normalization performed by `get_sora_job` on the parsed upstream
body (`server.py` lines 138–146 and identically 184–192).  Any
`AttributeError`/`TypeError` raised by the Python expressions surfaces as
`.error`. -/
def get_sora_normalize (data : Json) : Except String NormalizedStatus :=
  match assetsOf data with
  | .error e => .error e
  | .ok assets =>
    match videoUrlOf assets with
    | .error e => .error e
    | .ok video_url =>
      match pyDictGet data "status" with
      | .error e => .error e
      | .ok status =>
        match pyDictGet data "progress" with
        | .error e => .error e
        | .ok progress =>
          match pyDictGet data "output" with
          | .error e => .error e
          | .ok o2 =>
            match pyDictGet (pyOr o2 (Json.obj [])) "thumbnail_url" with
            | .error e => .error e
            | .ok thumbnail_url =>
              .ok { status := status, progress := progress,
                    video_url := video_url, thumbnail_url := thumbnail_url,
                    raw := data }

/-- `jobJson.k if present else null` as the spec words it (§4.2): a field
of an object, `null` when the key is missing or the value is not an
object. -/
def specGet (j : Json) (k : String) : Json :=
  match j with
  | .obj kvs => dictGetD kvs k .null
  | _ => .null

/-- The spec's `video_url` rule (§4.2): if `assets` is a non-empty
ordered sequence, element 0's `url` field if present, else null. -/
def specVideoUrl (assets : Json) : Json :=
  match assets with
  | .arr (a0 :: _) => specGet a0 "url"
  | _ => .null

/-- The Response Normalizer exactly as the spec §4.2 describes it
(total; used to compare the code's normalization against the spec's
words). -/
def spec_normalize (j : Json) : NormalizedStatus :=
  let output := specGet j "output"
  { status := specGet j "status", progress := specGet j "progress",
    video_url := specVideoUrl (specGet output "assets"),
    thumbnail_url := specGet output "thumbnail_url",
    raw := j }

/-- The shapes on which the code's normalization does not raise: the input
is an object, its `output` (after `or {}`) is an object, and when the
resulting `assets` value is truthy it is a non-empty list whose first
element (after `or {}`) is an object. -/
def normWellTyped (j : Json) : Bool :=
  match j with
  | .obj kvs =>
    match pyOr (dictGetD kvs "output" .null) (Json.obj []) with
    | .obj okvs =>
      let assets := pyOr (dictGetD okvs "assets" .null) (Json.arr [])
      if assets.truthy then
        match assets with
        | .arr (a0 :: _) =>
          (match pyOr a0 (Json.obj []) with
           | .obj _ => true
           | _ => false)
        | _ => false
      else true
    | _ => false
  | _ => false

/-- The gateway's environment-sourced configuration (`server.py` lines
27–31).  `apiKey = none` models "no API key configured" (the falsy case of
`SORA_API_KEY`); `accessToken` is the optional `MCP_ACCESS_TOKEN`. -/
structure Config where
  apiBase : String
  apiKey : Option String
  modelId : String
  accessToken : Option String

/-- How an unset key renders inside an f-string
(`f"Bearer {SORA_API_KEY}"` with `SORA_API_KEY = None`). -/
def keyString : Option String → String
  | some k => k
  | none => "None"

/-- One outbound `httpx` request as the handlers build it: method, URL
path, the job id interpolated into the GET URL, the JSON payload of the
POST, and the `Authorization` header. -/
structure OutRequest where
  method : String
  path : String
  jobId : Option Json
  payload : Option Json
  authHeader : String

/-- The fallback `start_sora_job` (`server.py` lines 149–174): validates
`prompt` by truthiness, fills defaults with `kwargs.get`, and issues the
POST with `Authorization: Bearer {SORA_API_KEY}` — note there is NO check
that an API key is configured on this path. -/
def start_sora_job_fb (cfg : Config) (kwargs : List (String × Json))
    (world : Transport) : Except PyException Json × List OutRequest :=
  let prompt := dictGetD kwargs "prompt" .null
  if !prompt.truthy then
    (.error (.runtimeError "start_sora_job requires \x27prompt\x27"), [])
  else
    let payload : Json := .obj [
      ("model", .str cfg.modelId),
      ("prompt", prompt),
      ("duration", dictGetD kwargs "duration" (.num 12)),
      ("aspect_ratio", dictGetD kwargs "aspect_ratio" (.str "16:9")),
      ("resolution", dictGetD kwargs "resolution" (.str "1080p")),
      ("audio", dictGetD kwargs "audio" (.bool true)),
      ("negative_prompt", dictGetD kwargs "negative_prompt" .null)]
    let req : OutRequest := {
      method := "POST", path := cfg.apiBase ++ "/video/jobs", jobId := none,
      payload := some payload,
      authHeader := "Bearer " ++ keyString cfg.apiKey }
    match world with
    | .ok resp => (.ok (safe_json resp), [req])
    | .timeoutErr m => (.error (.httpError true m), [req])
    | .connectErr m => (.error (.httpError false m), [req])

/-- The fallback `get_sora_job` (`server.py` lines 176–192): validates
`job_id` by truthiness, issues the GET (again with no API-key check), and
normalizes the parsed body. -/
def get_sora_job_fb (cfg : Config) (kwargs : List (String × Json))
    (world : Transport) : Except PyException Json × List OutRequest :=
  let job_id := dictGetD kwargs "job_id" .null
  if !job_id.truthy then
    (.error (.runtimeError "get_sora_job requires \x27job_id\x27"), [])
  else
    let req : OutRequest := {
      method := "GET", path := cfg.apiBase ++ "/video/jobs/",
      jobId := some job_id, payload := none,
      authHeader := "Bearer " ++ keyString cfg.apiKey }
    match world with
    | .ok resp =>
      (match get_sora_normalize (safe_json resp) with
       | .ok ns => (.ok ns.toJson, [req])
       | .error m => (.error (.attributeError m), [req]))
    | .timeoutErr m => (.error (.httpError true m), [req])
    | .connectErr m => (.error (.httpError false m), [req])

/-- Keyword names accepted by the FastMCP `start_sora_job` signature
(`server.py` lines 102–108). -/
def startParamNames : List String :=
  ["prompt", "duration", "aspect_ratio", "resolution", "audio", "negative_prompt"]

/-- The FastMCP-variant `start_sora_job` (`server.py` lines 101–128).
Calling the typed signature with `**kwargs` raises `TypeError` before the
body runs when `prompt` is missing or an unexpected keyword is present;
the body then checks the API key before any network I/O. -/
def start_sora_job_fm (cfg : Config) (kwargs : List (String × Json))
    (world : Transport) : Except PyException Json × List OutRequest :=
  if (kwargs.lookup "prompt").isNone then
    (.error (.typeError
      "start_sora_job() missing 1 required positional argument: \x27prompt\x27"), [])
  else if !(kwargs.all fun kv => startParamNames.contains kv.1) then
    (.error (.typeError "start_sora_job() got an unexpected keyword argument"), [])
  else
    match cfg.apiKey with
    | none => (.error (.runtimeError "Missing SORA_API_KEY or OPENAI_API_KEY"), [])
    | some key =>
      let payload : Json := .obj [
        ("model", .str cfg.modelId),
        ("prompt", dictGetD kwargs "prompt" .null),
        ("duration", dictGetD kwargs "duration" (.num 12)),
        ("aspect_ratio", dictGetD kwargs "aspect_ratio" (.str "16:9")),
        ("resolution", dictGetD kwargs "resolution" (.str "1080p")),
        ("audio", dictGetD kwargs "audio" (.bool true)),
        ("negative_prompt", dictGetD kwargs "negative_prompt" .null)]
      let req : OutRequest := {
        method := "POST", path := cfg.apiBase ++ "/video/jobs", jobId := none,
        payload := some payload, authHeader := "Bearer " ++ key }
      match world with
      | .ok resp => (.ok (safe_json resp), [req])
      | .timeoutErr m => (.error (.httpError true m), [req])
      | .connectErr m => (.error (.httpError false m), [req])

/-- The FastMCP-variant `get_sora_job` (`server.py` lines 130–146):
`TypeError` on bad keywords, API-key check before any network I/O, then
GET and normalize. -/
def get_sora_job_fm (cfg : Config) (kwargs : List (String × Json))
    (world : Transport) : Except PyException Json × List OutRequest :=
  if (kwargs.lookup "job_id").isNone then
    (.error (.typeError
      "get_sora_job() missing 1 required positional argument: \x27job_id\x27"), [])
  else if !(kwargs.all fun kv => ["job_id"].contains kv.1) then
    (.error (.typeError "get_sora_job() got an unexpected keyword argument"), [])
  else
    match cfg.apiKey with
    | none => (.error (.runtimeError "Missing SORA_API_KEY or OPENAI_API_KEY"), [])
    | some key =>
      let req : OutRequest := {
        method := "GET", path := cfg.apiBase ++ "/video/jobs/",
        jobId := some (dictGetD kwargs "job_id" .null), payload := none,
        authHeader := "Bearer " ++ key }
      match world with
      | .ok resp =>
        (match get_sora_normalize (safe_json resp) with
         | .ok ns => (.ok ns.toJson, [req])
         | .error m => (.error (.attributeError m), [req]))
      | .timeoutErr m => (.error (.httpError true m), [req])
      | .connectErr m => (.error (.httpError false m), [req])

/-- A Flask response: HTTP status code plus JSON body. -/
structure RestResponse where
  status : Int
  body : Json

/-- `{"ok": True, "result": ...}` (`server.py` lines 405/408). -/
def okBody (result : Json) : Json :=
  .obj [("ok", .bool true), ("result", result)]

/-- `_err(msg, code)` body (`server.py` lines 40–41). -/
def errBody (msg : String) : Json :=
  .obj [("ok", .bool false), ("error", .str msg)]

/-- The `except` clauses of `_run_tool_impl` (`server.py` lines 412–415):
`httpx.HTTPError` (timeouts included) → 502 "Upstream error: ...", every
other exception → 400 with `str(e)`. -/
def handlerException (e : PyException) : RestResponse :=
  match e with
  | .httpError _ m => { status := 502, body := errBody ("Upstream error: " ++ m) }
  | e => { status := 400, body := errBody e.message }

/-- `name = body.get("name") or body.get("tool")` (`server.py` line 395). -/
def resolvedName (body : List (String × Json)) : Json :=
  pyOr (dictGetD body "name" .null) (dictGetD body "tool" .null)

/-- `args = body.get("arguments") or body.get("input") or {}`
(`server.py` line 396). -/
def resolvedArgs (body : List (String × Json)) : Json :=
  pyOr (pyOr (dictGetD body "arguments" .null) (dictGetD body "input" .null))
    (Json.obj [])

/-- Python `name == "s"` for a JSON value: equal only when it is that
string. -/
def nameIs (v : Json) (s : String) : Bool :=
  match v with
  | .str t => t == s
  | _ => false

/-- `_run_tool_impl` (`server.py` lines 386–415) on an already-parsed JSON
object body.  `fm` selects the FastMCP or fallback tool variants.  The
second component lists the outbound requests the call issued. -/
def run_tool_impl (cfg : Config) (fm : Bool) (body : List (String × Json))
    (world : Transport) : RestResponse × List OutRequest :=
  let name := resolvedName body
  let args := resolvedArgs body
  if !name.truthy then
    ({ status := 400, body := errBody "Missing \x27name\x27 (tool)" }, [])
  else if nameIs name "start_sora_job" then
    match args with
    | .obj kvs =>
      (match (if fm then start_sora_job_fm cfg kvs world
              else start_sora_job_fb cfg kvs world) with
       | (.ok r, reqs) => ({ status := 200, body := okBody r }, reqs)
       | (.error e, reqs) => (handlerException e, reqs))
    | _ => ({ status := 400,
              body := errBody "argument after ** must be a mapping" }, [])
  else if nameIs name "get_sora_job" then
    match args with
    | .obj kvs =>
      (match (if fm then get_sora_job_fm cfg kvs world
              else get_sora_job_fb cfg kvs world) with
       | (.ok r, reqs) => ({ status := 200, body := okBody r }, reqs)
       | (.error e, reqs) => (handlerException e, reqs))
    | _ => ({ status := 400,
              body := errBody "argument after ** must be a mapping" }, [])
  else
    ({ status := 404,
       body := errBody ("Unknown tool \x27" ++ name.pyStr ++ "\x27") }, [])

/-- A JSON-RPC reply from the `tools/call` branch: a `result` (HTTP 200)
or an `error` object `{code, message, data?}` (also HTTP 200). -/
inductive RpcOut where
  | result (r : Json)
  | rpcError (code : Int) (message : String) (data : Option Json)

/-- The `tools/call` branch of `root_jsonrpc` (`server.py` lines
301–317): resolve `name` and `arguments` from `params`, dispatch, wrap
the result as `{"content": result}`, and turn any exception into error
`-32000` with `{"message": str(e)}`. -/
def rpc_tools_call (cfg : Config) (fm : Bool) (params : List (String × Json))
    (world : Transport) : RpcOut × List OutRequest :=
  let name := dictGetD params "name" .null
  let args := pyOr (dictGetD params "arguments" .null) (Json.obj [])
  if !name.truthy then
    (.rpcError (-32602) "Missing \x27name\x27 in tools/call params" none, [])
  else if nameIs name "start_sora_job" then
    match args with
    | .obj kvs =>
      (match (if fm then start_sora_job_fm cfg kvs world
              else start_sora_job_fb cfg kvs world) with
       | (.ok r, reqs) => (.result (.obj [("content", r)]), reqs)
       | (.error e, reqs) =>
         (.rpcError (-32000) "Tool execution failed"
            (some (.obj [("message", .str e.message)])), reqs))
    | _ =>
      (.rpcError (-32000) "Tool execution failed"
         (some (.obj [("message", .str "argument after ** must be a mapping")])), [])
  else if nameIs name "get_sora_job" then
    match args with
    | .obj kvs =>
      (match (if fm then get_sora_job_fm cfg kvs world
              else get_sora_job_fb cfg kvs world) with
       | (.ok r, reqs) => (.result (.obj [("content", r)]), reqs)
       | (.error e, reqs) =>
         (.rpcError (-32000) "Tool execution failed"
            (some (.obj [("message", .str e.message)])), reqs))
    | _ =>
      (.rpcError (-32000) "Tool execution failed"
         (some (.obj [("message", .str "argument after ** must be a mapping")])), [])
  else
    (.rpcError (-32601) ("Unknown tool \x27" ++ name.pyStr ++ "\x27") none, [])

/-- The path allowlist of `_require_auth_for_exec` (`server.py` lines
331–333). -/
def publicPaths : List String :=
  ["/", "/healthz", "/tools", "/mcp/tools", "/schema.json", "/.well-known/mcp.json"]

/-- `_require_auth_for_exec` (`server.py` lines 329–341): `none` means
the request may proceed; `some r` is the 401 response.  `OPTIONS` and the
allowlisted paths always pass; otherwise, when an access token is
configured (truthy), the `Authorization` header must be the bare token or
`Bearer <token>`. -/
def require_auth_for_exec (cfg : Config) (method path authHeader : String) :
    Option RestResponse :=
  if method == "OPTIONS" || publicPaths.contains path then none
  else
    match cfg.accessToken with
    | some tok =>
      if tok == "" then none
      else if authHeader == tok || authHeader == "Bearer " ++ tok then none
      else some { status := 401, body := errBody "Unauthorized" }
    | none => none

/-- `POST /tools/call` (`server.py` lines 372–377): auth gate, then the
dispatcher. -/
def tools_call_endpoint (cfg : Config) (fm : Bool) (authHeader : String)
    (body : List (String × Json)) (world : Transport) :
    RestResponse × List OutRequest :=
  match require_auth_for_exec cfg "POST" "/tools/call" authHeader with
  | some r => (r, [])
  | none => run_tool_impl cfg fm body world

/-- `POST /mcp/run` (`server.py` lines 379–384): auth gate, then the
dispatcher. -/
def mcp_run_endpoint (cfg : Config) (fm : Bool) (authHeader : String)
    (body : List (String × Json)) (world : Transport) :
    RestResponse × List OutRequest :=
  match require_auth_for_exec cfg "POST" "/mcp/run" authHeader with
  | some r => (r, [])
  | none => run_tool_impl cfg fm body world

/-- `POST /` with JSON-RPC method `tools/call` (`server.py` lines
210–317): `root_jsonrpc` dispatches the tool call directly — it never
invokes `_require_auth_for_exec`, so the `Authorization` header is not
consulted. -/
def root_tools_call_endpoint (cfg : Config) (fm : Bool) (_authHeader : String)
    (params : List (String × Json)) (world : Transport) :
    RpcOut × List OutRequest :=
  rpc_tools_call cfg fm params world

/-- Concrete configuration used by several witnesses: an API key is
configured, no access token. -/
def cfgA : Config :=
  { apiBase := "https://api.openai.com/v1", apiKey := some "k",
    modelId := "sora-2", accessToken := none }

/-- Concrete configuration with no API key configured. -/
def cfgNoKey : Config :=
  { apiBase := "b", apiKey := none, modelId := "m", accessToken := none }

/-- Concrete configuration with access token `secret` configured. -/
def cfgTok : Config :=
  { apiBase := "b", apiKey := some "k", modelId := "m",
    accessToken := some "secret" }

/-- The upstream body of Scenario B of the spec: a completed job with one
asset. -/
def scenarioB : Json :=
  Json.obj [("status", Json.str "completed"), ("progress", Json.num 100),
    ("output", Json.obj [
      ("assets", Json.arr [Json.obj [("url", Json.str "https://x/video.mp4")]]),
      ("thumbnail_url", Json.str "https://x/thumb.jpg")])]

/-- The NormalizedStatus Scenario B expects. -/
def scenarioB_result : NormalizedStatus :=
  { status := Json.str "completed", progress := Json.num 100,
    video_url := Json.str "https://x/video.mp4",
    thumbnail_url := Json.str "https://x/thumb.jpg", raw := scenarioB }

/-! ## Helper lemmas -/

lemma str_truthy (s : String) (h : s ≠ "") : (Json.str s).truthy = true := by
  cases s with
  | mk data =>
    cases data with
    | nil => exact absurd rfl h
    | cons c cs => rfl

lemma if_not_truthy {α : Sort _} (j : Json) (h : j.truthy = true) (a b : α) :
    (if !j.truthy then a else b) = b := by
  rw [h]
  rfl

lemma pyOr_obj_null (ks : List (String × Json)) :
    pyOr (pyOr (Json.obj ks) Json.null) (Json.obj []) = Json.obj ks := by
  cases ks <;> rfl

lemma pyOr_obj_obj (ks : List (String × Json)) :
    pyOr (Json.obj ks) (Json.obj []) = Json.obj ks := by
  cases ks <;> rfl

/-! ## C1 — upstream non-2xx handling -/

/-- Claim C1, amended: the upstream HTTP status is never inspected, so on
a non-2xx status the gateway produces no `UpstreamRejected` failure and no
502 (502 arises only from transport exceptions).  For `start_sora_job`
the `_safe_json` of the response — the parsed JSON body, or the
`{"status_code", "text"}` object when the body is not valid JSON — is
returned as an HTTP 200 success.  For `get_sora_job` that `_safe_json`
value is piped through the normalization: HTTP 200 with the
NormalizedStatus (the body appearing only under `raw`) when it succeeds,
and HTTP 400 with the attribute-error message (the generic exception
path) when it raises. -/
theorem C1_any_upstream_response_is_success (cfg : Config) (p jid : Json)
    (resp : HttpResponse) (hp : p.truthy = true) (hj : jid.truthy = true) :
    (run_tool_impl cfg false
        [("name", Json.str "start_sora_job"), ("arguments", Json.obj [("prompt", p)])]
        (Transport.ok resp)).1
      = { status := 200, body := okBody (safe_json resp) }
    ∧ (∀ ns, get_sora_normalize (safe_json resp) = Except.ok ns →
        (run_tool_impl cfg false
            [("name", Json.str "get_sora_job"),
             ("arguments", Json.obj [("job_id", jid)])]
            (Transport.ok resp)).1
          = { status := 200, body := okBody ns.toJson })
    ∧ (∀ m, get_sora_normalize (safe_json resp) = Except.error m →
        (run_tool_impl cfg false
            [("name", Json.str "get_sora_job"),
             ("arguments", Json.obj [("job_id", jid)])]
            (Transport.ok resp)).1
          = { status := 400, body := errBody m }) := by
  have hget : run_tool_impl cfg false
      [("name", Json.str "get_sora_job"), ("arguments", Json.obj [("job_id", jid)])]
      (Transport.ok resp)
    = (match get_sora_job_fb cfg [("job_id", jid)] (Transport.ok resp) with
       | (.ok r, reqs) => ({ status := 200, body := okBody r }, reqs)
       | (.error e, reqs) => (handlerException e, reqs)) := rfl
  have hfb : get_sora_job_fb cfg [("job_id", jid)] (Transport.ok resp)
      = (match get_sora_normalize (safe_json resp) with
         | .ok ns => (.ok ns.toJson,
             [{ method := "GET", path := cfg.apiBase ++ "/video/jobs/",
                jobId := some jid, payload := none,
                authHeader := "Bearer " ++ keyString cfg.apiKey }])
         | .error m => (.error (.attributeError m),
             [{ method := "GET", path := cfg.apiBase ++ "/video/jobs/",
                jobId := some jid, payload := none,
                authHeader := "Bearer " ++ keyString cfg.apiKey }])) :=
    if_not_truthy jid hj _ _
  refine ⟨?_, ?_, ?_⟩
  · have h1 : run_tool_impl cfg false
        [("name", Json.str "start_sora_job"), ("arguments", Json.obj [("prompt", p)])]
        (Transport.ok resp)
      = (match start_sora_job_fb cfg [("prompt", p)] (Transport.ok resp) with
         | (.ok r, reqs) => ({ status := 200, body := okBody r }, reqs)
         | (.error e, reqs) => (handlerException e, reqs)) := rfl
    rw [h1]
    have h2 : start_sora_job_fb cfg [("prompt", p)] (Transport.ok resp)
        = (.ok (safe_json resp),
           [{ method := "POST", path := cfg.apiBase ++ "/video/jobs", jobId := none,
              payload := some (Json.obj [("model", Json.str cfg.modelId), ("prompt", p),
                ("duration", Json.num 12), ("aspect_ratio", Json.str "16:9"),
                ("resolution", Json.str "1080p"), ("audio", Json.bool true),
                ("negative_prompt", Json.null)]),
              authHeader := "Bearer " ++ keyString cfg.apiKey }]) :=
      if_not_truthy p hp _ _
    rw [h2]
  · intro ns hns
    rw [hget, hfb, hns]
  · intro m hm
    rw [hget, hfb, hm]
    rfl

/-- Claim C1, counterexample (Scenario D of the spec): upstream answers
HTTP 400 with body `{"error": "bad request"}` on `start_sora_job`, yet the
gateway returns HTTP 200 with `{"ok": true, "result": {"error": "bad
request"}}` — a success, not an `UpstreamRejected`/502 failure. -/
theorem C1_counterexample :
    (run_tool_impl cfgA false
        [("name", Json.str "start_sora_job"),
         ("arguments", Json.obj [("prompt", Json.str "a cat surfing")])]
        (Transport.ok { status_code := 400,
                        jsonBody := some (Json.obj [("error", Json.str "bad request")]),
                        text := "\x7b\"error\":\"bad request\"\x7d" })).1
      = { status := 200, body := okBody (Json.obj [("error", Json.str "bad request")]) } := by
  rfl

/-- Claim C1, witness: the amended theorem applied to three concrete
non-2xx responses — a non-JSON 500 on `start_sora_job` (200 success with
the `{"status_code", "text"}` object), a 404 with a JSON error body on
`get_sora_job` (200 success with the normalized all-null fields and the
body under `raw`), and a 502 whose body parses to a JSON string on
`get_sora_job` (HTTP 400 with the attribute-error message). -/
theorem C1_witness :
    (run_tool_impl cfgA false
        [("name", Json.str "start_sora_job"),
         ("arguments", Json.obj [("prompt", Json.str "a cat surfing")])]
        (Transport.ok { status_code := 500, jsonBody := none, text := "oops" })).1
      = { status := 200,
          body := okBody (Json.obj [("status_code", Json.num 500),
                                    ("text", Json.str "oops")]) }
    ∧ (run_tool_impl cfgA false
        [("name", Json.str "get_sora_job"),
         ("arguments", Json.obj [("job_id", Json.str "job_123")])]
        (Transport.ok { status_code := 404,
                        jsonBody := some (Json.obj [("error", Json.str "nope")]),
                        text := "\x7b\"error\":\"nope\"\x7d" })).1
      = { status := 200,
          body := okBody (Json.obj [("status", Json.null), ("progress", Json.null),
            ("video_url", Json.null), ("thumbnail_url", Json.null),
            ("raw", Json.obj [("error", Json.str "nope")])]) }
    ∧ (run_tool_impl cfgA false
        [("name", Json.str "get_sora_job"),
         ("arguments", Json.obj [("job_id", Json.str "job_123")])]
        (Transport.ok { status_code := 502,
                        jsonBody := some (Json.str "bad gateway"),
                        text := "\"bad gateway\"" })).1
      = { status := 400,
          body := errBody "\x27str\x27 object has no attribute \x27get\x27" } :=
  ⟨(C1_any_upstream_response_is_success cfgA (Json.str "a cat surfing")
      (Json.str "job_123")
      { status_code := 500, jsonBody := none, text := "oops" } rfl rfl).1,
   (C1_any_upstream_response_is_success cfgA (Json.str "a cat surfing")
      (Json.str "job_123")
      { status_code := 404, jsonBody := some (Json.obj [("error", Json.str "nope")]),
        text := "\x7b\"error\":\"nope\"\x7d" } rfl rfl).2.1
     { status := Json.null, progress := Json.null, video_url := Json.null,
       thumbnail_url := Json.null, raw := Json.obj [("error", Json.str "nope")] } rfl,
   (C1_any_upstream_response_is_success cfgA (Json.str "a cat surfing")
      (Json.str "job_123")
      { status_code := 502, jsonBody := some (Json.str "bad gateway"),
        text := "\"bad gateway\"" } rfl rfl).2.2
     "\x27str\x27 object has no attribute \x27get\x27" rfl⟩

lemma if_falsy {α : Sort _} (j : Json) (h : j.truthy = false) (a b : α) :
    (if !j.truthy then a else b) = a := by
  rw [h]
  rfl

/-! ## C4 — transport failures -/

/-- Claim C4, amended: a transport failure — timeout or generic network
error, both `httpx.HTTPError` — is mapped by the REST entrypoint to HTTP
502 with body `{"ok": false, "error": "Upstream error: <message>"}`.  The
timeout is distinguishable only through the exception message; there is no
`UpstreamUnreachable` kind and no 504 mapping. -/
theorem C4_transport_failure_maps_to_502 (cfg : Config) (j : Json) (m : String)
    (hj : j.truthy = true) :
    (run_tool_impl cfg false
        [("name", Json.str "get_sora_job"), ("arguments", Json.obj [("job_id", j)])]
        (Transport.timeoutErr m)).1
      = { status := 502, body := errBody ("Upstream error: " ++ m) }
    ∧ (run_tool_impl cfg false
        [("name", Json.str "get_sora_job"), ("arguments", Json.obj [("job_id", j)])]
        (Transport.connectErr m)).1
      = { status := 502, body := errBody ("Upstream error: " ++ m) } := by
  constructor
  · have h1 : run_tool_impl cfg false
        [("name", Json.str "get_sora_job"), ("arguments", Json.obj [("job_id", j)])]
        (Transport.timeoutErr m)
      = (match get_sora_job_fb cfg [("job_id", j)] (Transport.timeoutErr m) with
         | (.ok r, reqs) => ({ status := 200, body := okBody r }, reqs)
         | (.error e, reqs) => (handlerException e, reqs)) := rfl
    have h2 : get_sora_job_fb cfg [("job_id", j)] (Transport.timeoutErr m)
        = (.error (.httpError true m),
           [{ method := "GET", path := cfg.apiBase ++ "/video/jobs/",
              jobId := some j, payload := none,
              authHeader := "Bearer " ++ keyString cfg.apiKey }]) :=
      if_not_truthy j hj _ _
    rw [h1, h2]
    rfl
  · have h1 : run_tool_impl cfg false
        [("name", Json.str "get_sora_job"), ("arguments", Json.obj [("job_id", j)])]
        (Transport.connectErr m)
      = (match get_sora_job_fb cfg [("job_id", j)] (Transport.connectErr m) with
         | (.ok r, reqs) => ({ status := 200, body := okBody r }, reqs)
         | (.error e, reqs) => (handlerException e, reqs)) := rfl
    have h2 : get_sora_job_fb cfg [("job_id", j)] (Transport.connectErr m)
        = (.error (.httpError false m),
           [{ method := "GET", path := cfg.apiBase ++ "/video/jobs/",
              jobId := some j, payload := none,
              authHeader := "Bearer " ++ keyString cfg.apiKey }]) :=
      if_not_truthy j hj _ _
    rw [h1, h2]
    rfl

/-- Claim C4, counterexample (Scenario C of the spec): upstream times out
on `get_sora_job` and the REST entrypoint answers HTTP 502 — not the 504
gateway-timeout class the claim requires. -/
theorem C4_counterexample :
    (run_tool_impl cfgA false
        [("name", Json.str "get_sora_job"),
         ("arguments", Json.obj [("job_id", Json.str "job_123")])]
        (Transport.timeoutErr "timed out")).1
      = { status := 502, body := errBody "Upstream error: timed out" } := by
  rfl

/-- Claim C4, witness: the amended theorem at `job_id = "job_123"` for a
timeout and a connect error, both 502. -/
theorem C4_witness :
    (Json.str "job_123").truthy = true ∧
    ((run_tool_impl cfgA false
        [("name", Json.str "get_sora_job"),
         ("arguments", Json.obj [("job_id", Json.str "job_123")])]
        (Transport.timeoutErr "timed out")).1
      = { status := 502, body := errBody "Upstream error: timed out" }
    ∧ (run_tool_impl cfgA false
        [("name", Json.str "get_sora_job"),
         ("arguments", Json.obj [("job_id", Json.str "job_123")])]
        (Transport.connectErr "timed out")).1
      = { status := 502, body := errBody "Upstream error: timed out" }) :=
  ⟨rfl, C4_transport_failure_maps_to_502 cfgA (Json.str "job_123") "timed out" rfl⟩

/-! ## C5 — unknown tool names -/

/-- Claim C5, confirmed: an invocation whose (non-empty) tool name is
neither `start_sora_job` nor `get_sora_job` gets HTTP 404 with
`Unknown tool '<name>'` on the REST path and JSON-RPC error `-32601` on
the RPC path, and in both cases the list of outbound requests is empty —
the Upstream Client is never called. -/
theorem C5_unknown_tool_not_found (cfg : Config) (fm : Bool) (s : String) (a : Json)
    (world : Transport) (hs : s ≠ "")
    (h1 : s ≠ "start_sora_job") (h2 : s ≠ "get_sora_job") :
    run_tool_impl cfg fm [("name", Json.str s), ("arguments", a)] world
      = ({ status := 404, body := errBody ("Unknown tool \x27" ++ s ++ "\x27") }, [])
    ∧ rpc_tools_call cfg fm [("name", Json.str s), ("arguments", a)] world
      = (.rpcError (-32601) ("Unknown tool \x27" ++ s ++ "\x27") none, []) := by
  have ht := str_truthy s hs
  have hb1 : (s == "start_sora_job") = false := beq_eq_false_iff_ne.mpr h1
  have hb2 : (s == "get_sora_job") = false := beq_eq_false_iff_ne.mpr h2
  have hn : resolvedName [("name", Json.str s), ("arguments", a)] = Json.str s := by
    show pyOr (Json.str s) Json.null = Json.str s
    simp [pyOr, ht]
  constructor
  · simp [run_tool_impl, hn, ht, nameIs, hb1, hb2, Json.pyStr]
  · simp [rpc_tools_call, dictGetD, ht, nameIs, hb1, hb2, Json.pyStr]

/-- Claim C5, witness: the theorem at the concrete unknown name
`frobnicate`. -/
theorem C5_witness :
    run_tool_impl cfgA true [("name", Json.str "frobnicate"), ("arguments", Json.null)]
        (Transport.connectErr "x")
      = ({ status := 404, body := errBody "Unknown tool \x27frobnicate\x27" }, [])
    ∧ rpc_tools_call cfgA true [("name", Json.str "frobnicate"), ("arguments", Json.null)]
        (Transport.connectErr "x")
      = (.rpcError (-32601) "Unknown tool \x27frobnicate\x27" none, []) :=
  C5_unknown_tool_not_found cfgA true "frobnicate" Json.null (Transport.connectErr "x")
    (by decide) (by decide) (by decide)

/-! ## C6 — missing required arguments -/

/-- Claim C6, confirmed: a `start_sora_job` call whose arguments lack
`prompt` is rejected with HTTP 400 and message
`start_sora_job requires 'prompt'`, a `get_sora_job` call whose arguments
lack `job_id` with `get_sora_job requires 'job_id'`; in both cases the
list of outbound requests is empty, so no network call is made. -/
theorem C6_missing_required_field (cfg : Config) (ks gs : List (String × Json))
    (world : Transport)
    (hp : ks.lookup "prompt" = none) (hj : gs.lookup "job_id" = none) :
    run_tool_impl cfg false
        [("name", Json.str "start_sora_job"), ("arguments", Json.obj ks)] world
      = ({ status := 400,
           body := errBody "start_sora_job requires \x27prompt\x27" }, [])
    ∧ run_tool_impl cfg false
        [("name", Json.str "get_sora_job"), ("arguments", Json.obj gs)] world
      = ({ status := 400,
           body := errBody "get_sora_job requires \x27job_id\x27" }, []) := by
  constructor
  · have h1 : run_tool_impl cfg false
        [("name", Json.str "start_sora_job"), ("arguments", Json.obj ks)] world
      = (match (pyOr (pyOr (Json.obj ks) Json.null) (Json.obj [])) with
         | .obj kvs =>
           (match start_sora_job_fb cfg kvs world with
            | (.ok r, reqs) => ({ status := 200, body := okBody r }, reqs)
            | (.error e, reqs) => (handlerException e, reqs))
         | _ => ({ status := 400,
                   body := errBody "argument after ** must be a mapping" }, [])) := rfl
    rw [h1, pyOr_obj_null ks]
    have h2 : start_sora_job_fb cfg ks world
        = (.error (.runtimeError "start_sora_job requires \x27prompt\x27"), []) :=
      if_falsy (dictGetD ks "prompt" Json.null)
        (by simp [dictGetD, hp, Json.truthy]) _ _
    show ((match start_sora_job_fb cfg ks world with
          | (.ok r, reqs) => ({ status := 200, body := okBody r }, reqs)
          | (.error e, reqs) => (handlerException e, reqs)) :
          RestResponse × List OutRequest) = _
    rw [h2]
    rfl
  · have h1 : run_tool_impl cfg false
        [("name", Json.str "get_sora_job"), ("arguments", Json.obj gs)] world
      = (match (pyOr (pyOr (Json.obj gs) Json.null) (Json.obj [])) with
         | .obj kvs =>
           (match get_sora_job_fb cfg kvs world with
            | (.ok r, reqs) => ({ status := 200, body := okBody r }, reqs)
            | (.error e, reqs) => (handlerException e, reqs))
         | _ => ({ status := 400,
                   body := errBody "argument after ** must be a mapping" }, [])) := rfl
    rw [h1, pyOr_obj_null gs]
    have h2 : get_sora_job_fb cfg gs world
        = (.error (.runtimeError "get_sora_job requires \x27job_id\x27"), []) :=
      if_falsy (dictGetD gs "job_id" Json.null)
        (by simp [dictGetD, hj, Json.truthy]) _ _
    show ((match get_sora_job_fb cfg gs world with
          | (.ok r, reqs) => ({ status := 200, body := okBody r }, reqs)
          | (.error e, reqs) => (handlerException e, reqs)) :
          RestResponse × List OutRequest) = _
    rw [h2]
    rfl

/-- Claim C6, witness: the theorem at empty arguments for
`start_sora_job` and at `{"other": null}` for `get_sora_job`. -/
theorem C6_witness :
    run_tool_impl cfgA false
        [("name", Json.str "start_sora_job"), ("arguments", Json.obj [])]
        (Transport.connectErr "x")
      = ({ status := 400,
           body := errBody "start_sora_job requires \x27prompt\x27" }, [])
    ∧ run_tool_impl cfgA false
        [("name", Json.str "get_sora_job"),
         ("arguments", Json.obj [("other", Json.null)])]
        (Transport.connectErr "x")
      = ({ status := 400,
           body := errBody "get_sora_job requires \x27job_id\x27" }, []) :=
  C6_missing_required_field cfgA [] [("other", Json.null)]
    (Transport.connectErr "x") rfl rfl

/-! ## C3 — missing API key -/

/-- Claim C3, counterexample: with no API key configured, the fallback
`start_sora_job` does not fail fast — it issues the outbound POST anyway
with header `Authorization: Bearer None`, and the REST entrypoint even
reports success.  No `MissingCredential` failure is produced and network
I/O is attempted. -/
theorem C3_counterexample :
    run_tool_impl cfgNoKey false
        [("name", Json.str "start_sora_job"),
         ("arguments", Json.obj [("prompt", Json.str "hi")])]
        (Transport.ok { status_code := 200, jsonBody := some (Json.obj []), text := "" })
      = ({ status := 200, body := okBody (Json.obj []) },
         [{ method := "POST", path := "b/video/jobs", jobId := none,
            payload := some (Json.obj [("model", Json.str "m"),
              ("prompt", Json.str "hi"), ("duration", Json.num 12),
              ("aspect_ratio", Json.str "16:9"), ("resolution", Json.str "1080p"),
              ("audio", Json.bool true), ("negative_prompt", Json.null)]),
            authHeader := "Bearer None" }]) := by
  rfl

/-- Claim C3, amended: only the FastMCP variants fail fast — with no API
key configured they raise `RuntimeError("Missing SORA_API_KEY or
OPENAI_API_KEY")` before any network request (the request list is empty).
The fallback variants perform no credential check and issue the upstream
request with `Authorization: Bearer None` (see the counterexample). -/
theorem C3_fastmcp_missing_key_fails_fast (cfg : Config)
    (ks gs : List (String × Json)) (world : Transport)
    (hk : cfg.apiKey = none)
    (hp : (ks.lookup "prompt").isSome = true)
    (hka : (ks.all fun kv => startParamNames.contains kv.1) = true)
    (hj : (gs.lookup "job_id").isSome = true)
    (hga : (gs.all fun kv => ["job_id"].contains kv.1) = true) :
    start_sora_job_fm cfg ks world
      = (.error (.runtimeError "Missing SORA_API_KEY or OPENAI_API_KEY"), [])
    ∧ get_sora_job_fm cfg gs world
      = (.error (.runtimeError "Missing SORA_API_KEY or OPENAI_API_KEY"), []) := by
  have hp2 : (ks.lookup "prompt").isNone = false := by
    cases h : ks.lookup "prompt" <;> simp_all
  have hj2 : (gs.lookup "job_id").isNone = false := by
    cases h : gs.lookup "job_id" <;> simp_all
  constructor
  · simp only [start_sora_job_fm]
    rw [hp2, hka, hk]
    rfl
  · simp only [get_sora_job_fm]
    rw [hj2, hga, hk]
    rfl

/-- Claim C3, witness: the amended theorem at concrete single-key
argument dictionaries. -/
theorem C3_witness :
    start_sora_job_fm cfgNoKey [("prompt", Json.str "x")] (Transport.connectErr "c")
      = (.error (.runtimeError "Missing SORA_API_KEY or OPENAI_API_KEY"), [])
    ∧ get_sora_job_fm cfgNoKey [("job_id", Json.str "j")] (Transport.connectErr "c")
      = (.error (.runtimeError "Missing SORA_API_KEY or OPENAI_API_KEY"), []) :=
  C3_fastmcp_missing_key_fails_fast cfgNoKey
    [("prompt", Json.str "x")] [("job_id", Json.str "j")]
    (Transport.connectErr "c") rfl rfl rfl rfl rfl

/-! ## C9 — default payload -/

/-- Claim C9, confirmed: a `start_sora_job` invocation whose arguments
supply only `prompt` sends exactly the payload `{model: <configured>,
prompt: <given>, duration: 12, aspect_ratio: "16:9", resolution: "1080p",
audio: true, negative_prompt: null}` — in the fallback and in the FastMCP
variant alike. -/
theorem C9_default_payload (cfg : Config) (k p : String) (world : Transport)
    (hp : p ≠ "") (hk : cfg.apiKey = some k) :
    (start_sora_job_fb cfg [("prompt", Json.str p)] world).2
      = [{ method := "POST", path := cfg.apiBase ++ "/video/jobs", jobId := none,
           payload := some (Json.obj [("model", Json.str cfg.modelId),
             ("prompt", Json.str p), ("duration", Json.num 12),
             ("aspect_ratio", Json.str "16:9"), ("resolution", Json.str "1080p"),
             ("audio", Json.bool true), ("negative_prompt", Json.null)]),
           authHeader := "Bearer " ++ keyString cfg.apiKey }]
    ∧ (start_sora_job_fm cfg [("prompt", Json.str p)] world).2
      = [{ method := "POST", path := cfg.apiBase ++ "/video/jobs", jobId := none,
           payload := some (Json.obj [("model", Json.str cfg.modelId),
             ("prompt", Json.str p), ("duration", Json.num 12),
             ("aspect_ratio", Json.str "16:9"), ("resolution", Json.str "1080p"),
             ("audio", Json.bool true), ("negative_prompt", Json.null)]),
           authHeader := "Bearer " ++ k }] := by
  have ht := str_truthy p hp
  constructor
  · cases world <;>
      exact congrArg Prod.snd (if_not_truthy (Json.str p) ht _ _)
  · cases world <;> (simp only [start_sora_job_fm]; rw [hk]; rfl)

/-- Claim C9, witness: Scenario A — `{"prompt": "a cat surfing"}` under
the concrete configuration. -/
theorem C9_witness :
    (start_sora_job_fb cfgA [("prompt", Json.str "a cat surfing")]
        (Transport.connectErr "c")).2
      = [{ method := "POST", path := "https://api.openai.com/v1/video/jobs",
           jobId := none,
           payload := some (Json.obj [("model", Json.str "sora-2"),
             ("prompt", Json.str "a cat surfing"), ("duration", Json.num 12),
             ("aspect_ratio", Json.str "16:9"), ("resolution", Json.str "1080p"),
             ("audio", Json.bool true), ("negative_prompt", Json.null)]),
           authHeader := "Bearer k" }]
    ∧ (start_sora_job_fm cfgA [("prompt", Json.str "a cat surfing")]
        (Transport.connectErr "c")).2
      = [{ method := "POST", path := "https://api.openai.com/v1/video/jobs",
           jobId := none,
           payload := some (Json.obj [("model", Json.str "sora-2"),
             ("prompt", Json.str "a cat surfing"), ("duration", Json.num 12),
             ("aspect_ratio", Json.str "16:9"), ("resolution", Json.str "1080p"),
             ("audio", Json.bool true), ("negative_prompt", Json.null)]),
           authHeader := "Bearer k" }] :=
  C9_default_payload cfgA "k" "a cat surfing" (Transport.connectErr "c")
    (by decide) rfl

/-! ## C10 — alias precedence at the REST execution endpoints -/

/-- Claim C10, confirmed: `name`/`tool` and `arguments`/`input` are
resolved by Python `or`-truthiness: a truthy `name` wins over `tool`, a
falsy `name` falls through to `tool`; a truthy `arguments` wins over
`input`, a falsy `arguments` falls through to `input` and then to the
empty object. -/
theorem C10_alias_precedence (n t a i m b b2 : Json)
    (hn : n.truthy = true) (hm : m.truthy = false)
    (ha : a.truthy = true) (hb : b.truthy = false) (hb2 : b2.truthy = false) :
    resolvedName [("name", n), ("tool", t)] = n
    ∧ resolvedName [("name", m), ("tool", t)] = t
    ∧ resolvedArgs [("arguments", a), ("input", i)] = a
    ∧ resolvedArgs [("arguments", b), ("input", i)] = pyOr i (Json.obj [])
    ∧ resolvedArgs [("arguments", b), ("input", b2)] = Json.obj [] := by
  refine ⟨?_, ?_, ?_, ?_, ?_⟩
  · show pyOr n t = n
    simp [pyOr, hn]
  · show pyOr m t = t
    simp [pyOr, hm]
  · show pyOr (pyOr a i) (Json.obj []) = a
    simp [pyOr, ha]
  · show pyOr (pyOr b i) (Json.obj []) = pyOr i (Json.obj [])
    simp [pyOr, hb]
  · show pyOr (pyOr b b2) (Json.obj []) = Json.obj []
    simp [pyOr, hb, hb2]

/-- Claim C10, witness: concrete bodies — both aliases present (the
primary wins), falsy primary (the alias wins), both falsy (empty
object). -/
theorem C10_witness :
    resolvedName [("name", Json.str "get_sora_job"),
                  ("tool", Json.str "start_sora_job")] = Json.str "get_sora_job"
    ∧ resolvedName [("name", Json.str ""),
                    ("tool", Json.str "start_sora_job")] = Json.str "start_sora_job"
    ∧ resolvedArgs [("arguments", Json.obj [("job_id", Json.str "j")]),
                    ("input", Json.obj [("prompt", Json.str "x")])]
        = Json.obj [("job_id", Json.str "j")]
    ∧ resolvedArgs [("arguments", Json.obj []),
                    ("input", Json.obj [("prompt", Json.str "x")])]
        = pyOr (Json.obj [("prompt", Json.str "x")]) (Json.obj [])
    ∧ resolvedArgs [("arguments", Json.obj []), ("input", Json.null)]
        = Json.obj [] :=
  C10_alias_precedence (Json.str "get_sora_job") (Json.str "start_sora_job")
    (Json.obj [("job_id", Json.str "j")]) (Json.obj [("prompt", Json.str "x")])
    (Json.str "") (Json.obj []) Json.null rfl rfl rfl rfl rfl

/-! ## C2 — bearer-token gate -/

/-- Claim C2, counterexample: with access token `secret` configured and a
wrong `Authorization` header, the JSON-RPC endpoint at `/` still executes
`get_sora_job` — the upstream GET is issued and a JSON-RPC result is
returned instead of a 401 rejection, because `root_jsonrpc` never invokes
`_require_auth_for_exec`.  So not every tool-executing endpoint is
protected. -/
theorem C2_counterexample :
    root_tools_call_endpoint cfgTok false "wrong-token"
        [("name", Json.str "get_sora_job"),
         ("arguments", Json.obj [("job_id", Json.str "j1")])]
        (Transport.ok { status_code := 200, jsonBody := some (Json.obj []), text := "" })
      = (.result (Json.obj [("content", Json.obj [("status", Json.null),
           ("progress", Json.null), ("video_url", Json.null),
           ("thumbnail_url", Json.null), ("raw", Json.obj [])])]),
         [{ method := "GET", path := "b/video/jobs/", jobId := some (Json.str "j1"),
            payload := none, authHeader := "Bearer k" }]) := by
  rfl

/-- Claim C2, amended: when an access token is configured, the REST
execution endpoints `/tools/call` and `/mcp/run` reject a request whose
`Authorization` header is neither the bare token nor `Bearer <token>`
with HTTP 401 before any tool runs (no outbound request), and the
discovery/health paths pass the gate without the token; the JSON-RPC
endpoint at `/`, however, executes tools with no token check at all (see
the counterexample). -/
theorem C2_rest_exec_requires_token (cfg : Config) (fm : Bool) (tok auth : String)
    (body : List (String × Json)) (world : Transport)
    (htok : cfg.accessToken = some tok) (hne : tok ≠ "")
    (h1 : auth ≠ tok) (h2 : auth ≠ "Bearer " ++ tok) :
    tools_call_endpoint cfg fm auth body world
      = ({ status := 401, body := errBody "Unauthorized" }, [])
    ∧ mcp_run_endpoint cfg fm auth body world
      = ({ status := 401, body := errBody "Unauthorized" }, [])
    ∧ require_auth_for_exec cfg "GET" "/tools" auth = none
    ∧ require_auth_for_exec cfg "GET" "/healthz" auth = none := by
  have hb0 : (tok == "") = false := beq_eq_false_iff_ne.mpr hne
  have hb1 : (auth == tok) = false := beq_eq_false_iff_ne.mpr h1
  have hb2 : (auth == "Bearer " ++ tok) = false := beq_eq_false_iff_ne.mpr h2
  have hgate1 : require_auth_for_exec cfg "POST" "/tools/call" auth
      = some { status := 401, body := errBody "Unauthorized" } := by
    simp [require_auth_for_exec, publicPaths, htok, hb0, hb1, hb2]
  have hgate2 : require_auth_for_exec cfg "POST" "/mcp/run" auth
      = some { status := 401, body := errBody "Unauthorized" } := by
    simp [require_auth_for_exec, publicPaths, htok, hb0, hb1, hb2]
  refine ⟨?_, ?_, rfl, rfl⟩
  · show (match require_auth_for_exec cfg "POST" "/tools/call" auth with
          | some r => (r, [])
          | none => run_tool_impl cfg fm body world) = _
    rw [hgate1]
  · show (match require_auth_for_exec cfg "POST" "/mcp/run" auth with
          | some r => (r, [])
          | none => run_tool_impl cfg fm body world) = _
    rw [hgate2]

/-- Claim C2, witness: the amended theorem at the concrete token
`secret` and header `Bearer wrong`. -/
theorem C2_witness :
    tools_call_endpoint cfgTok true "Bearer wrong"
        [("name", Json.str "get_sora_job")] (Transport.connectErr "c")
      = ({ status := 401, body := errBody "Unauthorized" }, [])
    ∧ mcp_run_endpoint cfgTok true "Bearer wrong"
        [("name", Json.str "get_sora_job")] (Transport.connectErr "c")
      = ({ status := 401, body := errBody "Unauthorized" }, [])
    ∧ require_auth_for_exec cfgTok "GET" "/tools" "Bearer wrong" = none
    ∧ require_auth_for_exec cfgTok "GET" "/healthz" "Bearer wrong" = none :=
  C2_rest_exec_requires_token cfgTok true "secret" "Bearer wrong"
    [("name", Json.str "get_sora_job")] (Transport.connectErr "c")
    rfl (by decide) (by decide) (by decide)

/-! ## Normalization lemmas (C7, C8) -/

lemma pyDictGet_obj (kvs : List (String × Json)) (k : String) :
    pyDictGet (Json.obj kvs) k = .ok (dictGetD kvs k .null) := rfl

lemma get_sora_normalize_obj (kvs : List (String × Json)) :
    get_sora_normalize (Json.obj kvs)
      = match pyDictGet (pyOr (dictGetD kvs "output" Json.null) (Json.obj [])) "assets" with
        | .error e => .error e
        | .ok ar =>
          match videoUrlOf (pyOr ar (Json.arr [])) with
          | .error e => .error e
          | .ok video_url =>
            match pyDictGet (pyOr (dictGetD kvs "output" Json.null) (Json.obj [])) "thumbnail_url" with
            | .error e => .error e
            | .ok thumbnail_url =>
              .ok { status := dictGetD kvs "status" Json.null,
                    progress := dictGetD kvs "progress" Json.null,
                    video_url := video_url, thumbnail_url := thumbnail_url,
                    raw := Json.obj kvs } := by
  cases h1 : pyDictGet (pyOr (dictGetD kvs "output" Json.null) (Json.obj [])) "assets" with
  | error e => simp only [get_sora_normalize, assetsOf, pyDictGet_obj, h1]
  | ok ar =>
    cases h2 : videoUrlOf (pyOr ar (Json.arr [])) with
    | error e => simp only [get_sora_normalize, assetsOf, pyDictGet_obj, h1, h2]
    | ok v =>
      cases h3 : pyDictGet (pyOr (dictGetD kvs "output" Json.null) (Json.obj [])) "thumbnail_url" with
      | error e => simp only [get_sora_normalize, assetsOf, pyDictGet_obj, h1, h2, h3]
      | ok th => simp only [get_sora_normalize, assetsOf, pyDictGet_obj, h1, h2, h3]

lemma pyOr_truthy_left (a b : Json) (h : a.truthy = true) : pyOr a b = a := by
  simp [pyOr, h]

lemma pyOr_falsy_left (a b : Json) (h : a.truthy = false) : pyOr a b = b := by
  simp [pyOr, h]

lemma specGet_of_pyOr (o : Json) (okvs : List (String × Json)) (k : String)
    (h : pyOr o (Json.obj []) = Json.obj okvs) :
    specGet o k = dictGetD okvs k Json.null := by
  cases ht : o.truthy with
  | true =>
    rw [pyOr_truthy_left _ _ ht] at h
    subst h
    rfl
  | false =>
    rw [pyOr_falsy_left _ _ ht] at h
    cases h
    cases o with
    | null => rfl
    | bool b => rfl
    | num n => rfl
    | str s => rfl
    | arr xs => rfl
    | obj l =>
      cases l with
      | nil => rfl
      | cons hd tl => exact Bool.noConfusion ht

lemma videoUrlOf_falsy (a : Json) (h : a.truthy = false) :
    videoUrlOf a = .ok Json.null := by
  simp [videoUrlOf, h]

lemma videoUrl_matches_spec (ar v : Json)
    (hv : videoUrlOf (pyOr ar (Json.arr [])) = Except.ok v) :
    specVideoUrl ar = v := by
  cases hat : ar.truthy with
  | false =>
    rw [pyOr_falsy_left _ _ hat, videoUrlOf_falsy (Json.arr []) rfl] at hv
    injection hv with hv'
    subst hv'
    cases ar with
    | arr xs =>
      cases xs with
      | nil => rfl
      | cons a0 rest => exact Bool.noConfusion hat
    | null => rfl
    | bool b => rfl
    | num n => rfl
    | str s => rfl
    | obj l => rfl
  | true =>
    rw [pyOr_truthy_left _ _ hat] at hv
    cases ar with
    | null => exact Bool.noConfusion hat
    | bool b =>
      have hb : b = true := hat
      subst hb
      exact Except.noConfusion hv
    | num n =>
      simp only [videoUrlOf, hat] at hv
      exact Except.noConfusion hv
    | str s =>
      cases hd : s.data with
      | nil =>
        rw [show (Json.str s).truthy = !s.data.isEmpty from rfl, hd] at hat
        exact Bool.noConfusion hat
      | cons c cs =>
        simp only [videoUrlOf, hat, pyIndex0, hd] at hv
        exact Except.noConfusion hv
    | obj l =>
      cases l with
      | nil => exact Bool.noConfusion hat
      | cons hd tl => exact Except.noConfusion hv
    | arr xs =>
      cases xs with
      | nil => exact Bool.noConfusion hat
      | cons a0 rest =>
        simp only [videoUrlOf, hat, pyIndex0] at hv
        rcases hpb : pyOr a0 (Json.obj []) with _ | b2 | n2 | s2 | xs2 | akvs <;>
          rw [hpb] at hv
        case obj =>
          rw [pyDictGet_obj] at hv
          injection hv with hv'
          subst hv'
          show specGet a0 "url" = dictGetD akvs "url" Json.null
          exact specGet_of_pyOr a0 akvs "url" hpb
        all_goals exact Except.noConfusion hv

/-! ## C7 — totality of the normalization -/

/-- Claim C7, counterexample: on the upstream body `{"output": "oops"}` —
a JSON object whose nested `output` field has an unexpected non-object
type — the normalization raises (`AttributeError: 'str' object has no
attribute 'get'`) instead of returning a NormalizedStatus with null
fields. -/
theorem C7_counterexample :
    get_sora_normalize (Json.obj [("output", Json.str "oops")])
      = Except.error "\x27str\x27 object has no attribute \x27get\x27" := by
  rfl

/-- Claim C7, amended: the normalization is total exactly on the
well-shaped inputs (`normWellTyped`): the upstream body is a JSON object,
its `output` (after `or {}`) is an object, and when the resulting
`assets` value is truthy it is a non-empty list whose first element
(after `or {}`) is an object.  On those inputs — which include `{}`,
`{"output": null}`, and `{"output": {"assets": []}}` — it returns a
NormalizedStatus with every absent field null; on other shapes it raises
instead of defaulting (see the counterexample). -/
theorem C7_normalize_total_on_welltyped (j : Json) (h : normWellTyped j = true) :
    ∃ ns, get_sora_normalize j = Except.ok ns := by
  cases j with
  | null => exact Bool.noConfusion h
  | bool b => exact Bool.noConfusion h
  | num n => exact Bool.noConfusion h
  | str s => exact Bool.noConfusion h
  | arr xs => exact Bool.noConfusion h
  | obj kvs =>
    simp only [normWellTyped] at h
    rcases hpo : pyOr (dictGetD kvs "output" Json.null) (Json.obj []) with _ | b | n | s | xs | okvs <;>
      rw [hpo] at h
    all_goals try exact Bool.noConfusion h
    simp only [] at h
    cases hat : (pyOr (dictGetD okvs "assets" Json.null) (Json.arr [])).truthy with
    | false =>
      refine ⟨{ status := dictGetD kvs "status" Json.null,
                progress := dictGetD kvs "progress" Json.null,
                video_url := Json.null,
                thumbnail_url := dictGetD okvs "thumbnail_url" Json.null,
                raw := Json.obj kvs }, ?_⟩
      rw [get_sora_normalize_obj, hpo]
      simp only [pyDictGet_obj]
      rw [videoUrlOf_falsy _ hat]
    | true =>
      simp only [hat, if_true] at h
      rcases hpa : pyOr (dictGetD okvs "assets" Json.null) (Json.arr []) with _ | b2 | n2 | s2 | xs2 | okvs2 <;>
        rw [hpa] at h
      all_goals try exact Bool.noConfusion h
      cases xs2 with
      | nil => exact Bool.noConfusion h
      | cons a0 rest =>
        simp only [] at h
        rcases hpb : pyOr a0 (Json.obj []) with _ | b3 | n3 | s3 | xs3 | akvs <;> rw [hpb] at h
        all_goals try exact Bool.noConfusion h
        refine ⟨{ status := dictGetD kvs "status" Json.null,
                  progress := dictGetD kvs "progress" Json.null,
                  video_url := dictGetD akvs "url" Json.null,
                  thumbnail_url := dictGetD okvs "thumbnail_url" Json.null,
                  raw := Json.obj kvs }, ?_⟩
        rw [get_sora_normalize_obj, hpo]
        simp only [pyDictGet_obj]
        have hvu : videoUrlOf (pyOr (dictGetD okvs "assets" Json.null) (Json.arr []))
            = .ok (dictGetD akvs "url" Json.null) := by
          rw [hpa]
          show pyDictGet (pyOr a0 (Json.obj [])) "url" = _
          rw [hpb, pyDictGet_obj]
        rw [hvu]

/-- Claim C7, witness: the theorem applied to the three inputs named by
the spec — `{}`, `{"output": null}`, and `{"output": {"assets": []}}`. -/
theorem C7_witness :
    (normWellTyped (Json.obj []) = true
      ∧ ∃ ns, get_sora_normalize (Json.obj []) = Except.ok ns)
    ∧ (normWellTyped (Json.obj [("output", Json.null)]) = true
      ∧ ∃ ns, get_sora_normalize (Json.obj [("output", Json.null)]) = Except.ok ns)
    ∧ (normWellTyped (Json.obj [("output", Json.obj [("assets", Json.arr [])])]) = true
      ∧ ∃ ns, get_sora_normalize (Json.obj [("output", Json.obj [("assets", Json.arr [])])])
          = Except.ok ns) :=
  ⟨⟨rfl, C7_normalize_total_on_welltyped (Json.obj []) rfl⟩,
   ⟨rfl, C7_normalize_total_on_welltyped (Json.obj [("output", Json.null)]) rfl⟩,
   ⟨rfl, C7_normalize_total_on_welltyped
      (Json.obj [("output", Json.obj [("assets", Json.arr [])])]) rfl⟩⟩

/-! ## C8 — the normalization against the spec's field rules -/

/-- Claim C8, counterexample: on the upstream body
`{"output": {"assets": 5}}` the normalization does not return `video_url
= null` as the claim's else-null rule requires — it raises (`TypeError:
'int' object is not subscriptable`), so "for every upstream job JSON" is
too strong. -/
theorem C8_counterexample :
    get_sora_normalize (Json.obj [("output", Json.obj [("assets", Json.num 5)])])
      = Except.error "\x27int\x27 object is not subscriptable" := by
  rfl

/-- Claim C8, amended: whenever the normalization returns (does not
raise), its result agrees field-by-field with the spec's extraction
rules — `status`/`progress` from the top level else null, `video_url`
from element 0 of `output.assets` else null, `thumbnail_url` from
`output` else null — and `raw` is the unmodified input
(`spec_normalize j` carries `raw := j`). -/
theorem C8_normalize_matches_spec (j : Json) (ns : NormalizedStatus)
    (h : get_sora_normalize j = Except.ok ns) : ns = spec_normalize j := by
  cases j with
  | null => exact Except.noConfusion h
  | bool b => exact Except.noConfusion h
  | num n => exact Except.noConfusion h
  | str s => exact Except.noConfusion h
  | arr xs => exact Except.noConfusion h
  | obj kvs =>
    rw [get_sora_normalize_obj] at h
    rcases hpo : pyOr (dictGetD kvs "output" Json.null) (Json.obj []) with _ | b | n | s | xs | okvs <;>
      rw [hpo] at h
    all_goals try exact Except.noConfusion h
    simp only [pyDictGet_obj] at h
    cases hv : videoUrlOf (pyOr (dictGetD okvs "assets" Json.null) (Json.arr [])) with
    | error e =>
      rw [hv] at h
      exact Except.noConfusion h
    | ok v =>
      rw [hv] at h
      injection h with h'
      subst h'
      have e1 := specGet_of_pyOr (dictGetD kvs "output" Json.null) okvs "assets" hpo
      have e2 := specGet_of_pyOr (dictGetD kvs "output" Json.null) okvs "thumbnail_url" hpo
      have e3 := videoUrl_matches_spec (dictGetD okvs "assets" Json.null) v hv
      simp only [spec_normalize]
      rw [show specGet (Json.obj kvs) "output" = dictGetD kvs "output" Json.null from rfl,
          e1, e2, e3]
      rfl

/-- Claim C8, witness: Scenario B of the spec — the upstream body with a
completed job — normalizes to the expected NormalizedStatus, which the
amended claim equates with the spec's extraction (including `raw` being
the unmodified input). -/
theorem C8_witness :
    get_sora_normalize scenarioB = Except.ok scenarioB_result
    ∧ scenarioB_result = spec_normalize scenarioB :=
  ⟨rfl, C8_normalize_matches_spec scenarioB scenarioB_result rfl⟩

end Sora
